import Mathlib

/-!
Shallow embedding of the Pong simulation core from `src/lib.rs` (a Bevy app).
Floating-point (`f32`) arithmetic is modelled over `ℚ` (exact), except where a
square root is intrinsic (vector normalization, speed magnitude), which is
modelled over `ℝ`. Each system of the fixed-timestep schedule becomes a pure
state transformer on a `GameState` record.
-/

namespace Pong

/-- A 2D vector with rational components, modelling Bevy `Vec2` (the `z`
component of `Vec3` transforms is render-only and carries no physics). -/
structure Vec2Q where
  x : ℚ
  y : ℚ
  deriving DecidableEq, Repr

/-- Constants from the top of `src/lib.rs` (render-only colors and font
metrics omitted: they never enter the simulation). -/
def TIME_STEP : ℚ := 1 / 60

def PADDLE_SIZE_X : ℚ := 20

def PADDLE_SIZE_Y : ℚ := 120

def GAP_BETWEEN_PADDLE_AND_SIDES : ℚ := 60

def PADDLE_SPEED : ℚ := 500

def PADDLE_PADDING : ℚ := 10

/-- `BALL_STARTING_POSITION` is `(0.0, -50.0, 1.0)`; `z = 1` is render order
only. -/
def BALL_STARTING_POSITION : Vec2Q := ⟨0, -50⟩

def BALL_SIZE : Vec2Q := ⟨30, 30⟩

def BALL_SPEED : ℚ := 400

def WALL_THICKNESS : ℚ := 10

def LEFT_WALL : ℚ := -450

def RIGHT_WALL : ℚ := 450

def BOTTOM_WALL : ℚ := -300

def TOP_WALL : ℚ := 300

/-- Upper clamp bound for paddle centers, from `move_paddle_left` /
`move_paddle_right`. -/
def upper_bound : ℚ := TOP_WALL - WALL_THICKNESS / 2 - PADDLE_SIZE_Y / 2 - PADDLE_PADDING

/-- Lower clamp bound for paddle centers. -/
def lower_bound : ℚ := BOTTOM_WALL + WALL_THICKNESS / 2 + PADDLE_SIZE_Y / 2 + PADDLE_PADDING

/-- x coordinate of the left paddle (`paddle_one_x` in `setup`). -/
def PADDLE_ONE_X : ℚ := LEFT_WALL + GAP_BETWEEN_PADDLE_AND_SIDES

/-- x coordinate of the right paddle (`paddle_two_x` in `setup`). -/
def PADDLE_TWO_X : ℚ := RIGHT_WALL - GAP_BETWEEN_PADDLE_AND_SIDES

/-- The side of the second (obstacle) rectangle struck by the first, as in
`bevy::sprite::collide_aabb::Collision`. -/
inductive Collision where
  | Left
  | Right
  | Top
  | Bottom
  | Inside
  deriving DecidableEq, Repr

/-- `WallLocation` from `src/lib.rs`: which side of the arena a wall is on. -/
inductive WallLocation where
  | Left
  | Right
  | Bottom
  | Top
  deriving DecidableEq, Repr

/-- `WallLocation::position`. -/
def WallLocation.position : WallLocation → Vec2Q
  | .Left => ⟨LEFT_WALL, 0⟩
  | .Right => ⟨RIGHT_WALL, 0⟩
  | .Bottom => ⟨0, BOTTOM_WALL⟩
  | .Top => ⟨0, TOP_WALL⟩

/-- The `match` body of `WallLocation::size`: the size each wall would get,
before the startup assertions are considered. -/
def WallLocation.sizeRaw : WallLocation → Vec2Q
  | .Left | .Right => ⟨WALL_THICKNESS, (TOP_WALL - BOTTOM_WALL) + WALL_THICKNESS⟩
  | .Bottom | .Top => ⟨(RIGHT_WALL - LEFT_WALL) + WALL_THICKNESS, WALL_THICKNESS⟩

/-- `WallLocation::size`, with the two `assert!` statements modelled as
`Option`: `none` means the assertion fires and initialization aborts. The
source asserts `arena_height > 0.0` first, then `arena_width > 0.0`. -/
def WallLocation.size (loc : WallLocation) : Option Vec2Q :=
  let arena_height := TOP_WALL - BOTTOM_WALL
  let arena_width := RIGHT_WALL - LEFT_WALL
  if arena_height > 0 then
    if arena_width > 0 then some loc.sizeRaw else none
  else none

/-- Modelled from the spec: the AABB overlap primitive
`bevy::sprite::collide_aabb::collide` lives in the external engine crate and
is not under `src/`. Per the spec (§4.1): overlap intervals on both axes are
computed from centers and half-extents; no overlap on either axis means no
collision; when both axes overlap, the struck side of the second rectangle is
the axis direction where the first rectangle penetrates least, and a first
rectangle contained in the second yields `Inside`. -/
def collide (aPos aSize bPos bSize : Vec2Q) : Option Collision :=
  let aMinX := aPos.x - aSize.x / 2
  let aMaxX := aPos.x + aSize.x / 2
  let aMinY := aPos.y - aSize.y / 2
  let aMaxY := aPos.y + aSize.y / 2
  let bMinX := bPos.x - bSize.x / 2
  let bMaxX := bPos.x + bSize.x / 2
  let bMinY := bPos.y - bSize.y / 2
  let bMaxY := bPos.y + bSize.y / 2
  if aMinX < bMaxX ∧ aMaxX > bMinX ∧ aMinY < bMaxY ∧ aMaxY > bMinY then
    let xColl : Option (Collision × ℚ) :=
      if aMinX < bMinX ∧ aMaxX > bMinX ∧ aMaxX < bMaxX then
        some (Collision.Left, bMinX - aMaxX)
      else if aMinX > bMinX ∧ aMinX < bMaxX ∧ aMaxX > bMaxX then
        some (Collision.Right, aMinX - bMaxX)
      else none
    let yColl : Option (Collision × ℚ) :=
      if aMinY < bMinY ∧ aMaxY > bMinY ∧ aMaxY < bMaxY then
        some (Collision.Bottom, bMinY - aMaxY)
      else if aMinY > bMinY ∧ aMinY < bMaxY ∧ aMaxY > bMaxY then
        some (Collision.Top, aMinY - bMaxY)
      else none
    match xColl, yColl with
    | some (xc, xd), some (yc, yd) => if |yd| < |xd| then some yc else some xc
    | some (xc, _), none => some xc
    | none, some (yc, _) => some yc
    | none, none => some Collision.Inside
  else
    none

/-- The reflection step of `check_for_collisions` (lines 432-453 of
`src/lib.rs`): compute the `reflect_x` / `reflect_y` booleans from the struck
side gated by the current velocity direction, then negate the corresponding
components. -/
def resolveVelocity (c : Collision) (v : Vec2Q) : Vec2Q :=
  let reflect_x : Bool :=
    match c with
    | Collision.Left => decide (v.x > 0)
    | Collision.Right => decide (v.x < 0)
    | _ => false
  let reflect_y : Bool :=
    match c with
    | Collision.Top => decide (v.y < 0)
    | Collision.Bottom => decide (v.y > 0)
    | _ => false
  { x := if reflect_x then -v.x else v.x
    y := if reflect_y then -v.y else v.y }

/-- One iteration of the collider loop in `check_for_collisions` for a single
(ball, collider) pair: run `collide`, and on overlap apply the gated
reflection; on no overlap the velocity is untouched. -/
def processPair (ballPos ballSize : Vec2Q) (v : Vec2Q) (c : Vec2Q × Vec2Q) : Vec2Q :=
  match collide ballPos ballSize c.1 c.2 with
  | none => v
  | some side => resolveVelocity side v

/-- The currently-held key state sampled each tick: `w`/`s` drive the left
paddle, `up`/`down` the right paddle. -/
structure KeyState where
  w : Bool
  s : Bool
  up : Bool
  down : Bool
  deriving DecidableEq, Repr

/-- The simulation state owned by the ECS world: the two paddle centers (their
x is fixed), the ball transform and velocity, and the `Scoreboard` resource. -/
structure GameState where
  leftPaddleY : ℚ
  rightPaddleY : ℚ
  ballPos : Vec2Q
  ballVel : Vec2Q
  leftScore : ℕ
  rightScore : ℕ
  deriving DecidableEq, Repr

/-- `f32::clamp` from the Rust standard library on non-NaN inputs: below the
range gives the minimum, above gives the maximum, inside is unchanged. -/
def clampQ (x lo hi : ℚ) : ℚ :=
  if x < lo then lo else if x > hi then hi else x

/-- The `direction` accumulator of `move_paddle_left` / `move_paddle_right`:
starts at `0.0`, the up key adds `1.0`, the down key subtracts `1.0`. -/
def paddleDirection (up down : Bool) : ℚ :=
  let d : ℚ := 0
  let d := if up then d + 1 else d
  let d := if down then d - 1 else d
  d

/-- The shared body of both paddle systems: advance the paddle center by
`direction * PADDLE_SPEED * TIME_STEP` and clamp into
`[lower_bound, upper_bound]`. -/
def movePaddleY (up down : Bool) (y : ℚ) : ℚ :=
  let new_paddle_position := y + paddleDirection up down * PADDLE_SPEED * TIME_STEP
  clampQ new_paddle_position lower_bound upper_bound

/-- `move_paddle_left`: keyed on `W` (up) and `S` (down), mutates only the
left paddle transform. -/
def move_paddle_left (keys : KeyState) (st : GameState) : GameState :=
  { st with leftPaddleY := movePaddleY keys.w keys.s st.leftPaddleY }

/-- `move_paddle_right`: keyed on `Up` and `Down`, mutates only the right
paddle transform. -/
def move_paddle_right (keys : KeyState) (st : GameState) : GameState :=
  { st with rightPaddleY := movePaddleY keys.up keys.down st.rightPaddleY }

/-- `apply_velocity`: for every entity with a `Velocity` component (only the
ball carries one), advance each position axis by `velocity * TIME_STEP`. -/
def apply_velocity (st : GameState) : GameState :=
  { st with ballPos := ⟨st.ballPos.x + st.ballVel.x * TIME_STEP,
                        st.ballPos.y + st.ballVel.y * TIME_STEP⟩ }

/-- The colliders visible to `check_for_collisions`: the two paddles (spawned
with `Collider` in `setup`) and the four walls (spawned via `WallBundle`), in
spawn order. The ball itself carries no `Collider`. -/
def colliders (st : GameState) : List (Vec2Q × Vec2Q) :=
  [ (⟨PADDLE_ONE_X, st.leftPaddleY⟩, ⟨PADDLE_SIZE_X, PADDLE_SIZE_Y⟩),
    (⟨PADDLE_TWO_X, st.rightPaddleY⟩, ⟨PADDLE_SIZE_X, PADDLE_SIZE_Y⟩),
    (WallLocation.Left.position, WallLocation.Left.sizeRaw),
    (WallLocation.Right.position, WallLocation.Right.sizeRaw),
    (WallLocation.Bottom.position, WallLocation.Bottom.sizeRaw),
    (WallLocation.Top.position, WallLocation.Top.sizeRaw) ]

/-- `check_for_collisions`: fold the per-pair reflection over every collider
against the ball's current transform. It holds `ResMut<Scoreboard>` but never
writes it; only the ball velocity is mutated. -/
def check_for_collisions (st : GameState) : GameState :=
  { st with ballVel := (colliders st).foldl (processPair st.ballPos BALL_SIZE) st.ballVel }

/-- One fixed-timestep tick as scheduled in `main`: the two paddle systems and
`apply_velocity` are each ordered `.before(check_for_collisions)`; this is the
canonical ordered composition (paddle motion, integration, collision). -/
def tick (keys : KeyState) (st : GameState) : GameState :=
  check_for_collisions (apply_velocity (move_paddle_right keys (move_paddle_left keys st)))

/-- A run of the fixed-timestep loop over a list of per-tick key snapshots. -/
def run (inputs : List KeyState) (st : GameState) : GameState :=
  inputs.foldl (fun s k => tick k s) st

/-- The state after `setup` and the `Scoreboard` insertion in `main`: paddles
centered vertically, ball at `BALL_STARTING_POSITION`, both scores zero. The
ball velocity is a parameter because `setup` draws it from a random direction. -/
def initialState (v : Vec2Q) : GameState :=
  { leftPaddleY := 0
    rightPaddleY := 0
    ballPos := BALL_STARTING_POSITION
    ballVel := v
    leftScore := 0
    rightScore := 0 }

/-- Vector normalization from the external math library (`Vec2::normalize`,
not under `src/`), modelled over `ℝ`: division by the Euclidean length,
undefined (`none`) exactly when the input is the zero vector, for which the
floating-point implementation yields NaN. -/
noncomputable def normalizeV (d : ℝ × ℝ) : Option (ℝ × ℝ) :=
  if Real.sqrt (d.1 ^ 2 + d.2 ^ 2) = 0 then none
  else some (d.1 / Real.sqrt (d.1 ^ 2 + d.2 ^ 2), d.2 / Real.sqrt (d.1 ^ 2 + d.2 ^ 2))

/-- The ball velocity computed in `setup`:
`initial_ball_direction.normalize() * BALL_SPEED`, with no guard on the
sampled direction. -/
noncomputable def ballInitialVelocity (d : ℝ × ℝ) : Option (ℝ × ℝ) :=
  (normalizeV d).map (fun u => (u.1 * (BALL_SPEED : ℝ), u.2 * (BALL_SPEED : ℝ)))

/-! ## Theorems -/

/-- Squared speed is preserved by every gated reflection (helper for the
conservation statement over `ℝ`). -/
theorem resolveVelocity_normSq (c : Collision) (v : Vec2Q) :
    (resolveVelocity c v).x ^ 2 + (resolveVelocity c v).y ^ 2 = v.x ^ 2 + v.y ^ 2 := by
  cases c <;> simp only [resolveVelocity] <;> split_ifs <;> ring

/-- C1: In collision resolution, the reflection is gated by the ball's current
velocity direction: a struck `Left` side flips `velocity.x` exactly when
`velocity.x > 0`, a struck `Right` side exactly when `velocity.x < 0`, a
struck `Top` side flips `velocity.y` exactly when `velocity.y < 0`, a struck
`Bottom` side exactly when `velocity.y > 0`, and a struck `Inside` result
flips nothing; in every case the other component is untouched. -/
theorem collision_reflection_gated (v : Vec2Q) :
    resolveVelocity Collision.Left v = ⟨if 0 < v.x then -v.x else v.x, v.y⟩ ∧
    resolveVelocity Collision.Right v = ⟨if v.x < 0 then -v.x else v.x, v.y⟩ ∧
    resolveVelocity Collision.Top v = ⟨v.x, if v.y < 0 then -v.y else v.y⟩ ∧
    resolveVelocity Collision.Bottom v = ⟨v.x, if 0 < v.y then -v.y else v.y⟩ ∧
    resolveVelocity Collision.Inside v = v := by
  refine ⟨?_, ?_, ?_, ?_, ?_⟩ <;> simp [resolveVelocity]

/-- C3: every reflection performed by collision resolution preserves the
magnitude of the ball's velocity exactly: no damping or scaling is applied. -/
theorem reflection_conserves_speed (c : Collision) (v : Vec2Q) :
    Real.sqrt (((resolveVelocity c v).x ^ 2 + (resolveVelocity c v).y ^ 2 : ℚ)) =
      Real.sqrt ((v.x ^ 2 + v.y ^ 2 : ℚ)) := by
  congr 1
  exact_mod_cast resolveVelocity_normSq c v

/-- The gated reflection is idempotent for every struck side (helper). -/
theorem resolveVelocity_idem (c : Collision) (v : Vec2Q) :
    resolveVelocity c (resolveVelocity c v) = resolveVelocity c v := by
  cases c <;>
    simp only [resolveVelocity, decide_eq_true_eq] <;>
    split_ifs <;>
    (try rfl) <;>
    (try simp_all) <;>
    linarith

/-- C4: collision response is idempotent per (ball, collider) pair within one
tick: with the ball's transform unchanged, processing the same pair a second
time performs no further velocity flip, so processing it twice equals
processing it once. -/
theorem collision_response_idempotent (ballPos ballSize : Vec2Q)
    (c : Vec2Q × Vec2Q) (v : Vec2Q) :
    processPair ballPos ballSize (processPair ballPos ballSize v c) c =
      processPair ballPos ballSize v c := by
  unfold processPair
  cases h : collide ballPos ballSize c.1 c.2 with
  | none => rfl
  | some side => exact resolveVelocity_idem side v

/-- C5: the schedule in `main` only constrains each of `move_paddle_left`,
`move_paddle_right` and `apply_velocity` to run before
`check_for_collisions`; since the three pre-collision systems touch disjoint
state, every execution order the schedule permits yields the ordered
composition (paddle motion, then integration, then collision resolution), so
collision detection always sees the post-move ball and paddle positions of
the same tick. -/
theorem tick_order_equivalence (keys : KeyState) (st : GameState) :
    check_for_collisions (apply_velocity (move_paddle_right keys (move_paddle_left keys st)))
        = tick keys st ∧
    check_for_collisions (apply_velocity (move_paddle_left keys (move_paddle_right keys st)))
        = tick keys st ∧
    check_for_collisions (move_paddle_right keys (apply_velocity (move_paddle_left keys st)))
        = tick keys st ∧
    check_for_collisions (move_paddle_left keys (apply_velocity (move_paddle_right keys st)))
        = tick keys st ∧
    check_for_collisions (move_paddle_right keys (move_paddle_left keys (apply_velocity st)))
        = tick keys st ∧
    check_for_collisions (move_paddle_left keys (move_paddle_right keys (apply_velocity st)))
        = tick keys st :=
  ⟨rfl, rfl, rfl, rfl, rfl, rfl⟩

/-- C6: velocity integration advances position by `velocity * TIME_STEP` per
tick independently on each axis, and leaves the velocity itself unchanged;
hence `N` collision-free ticks advance the position by exactly
`velocity * N * TIME_STEP`. -/
theorem apply_velocity_integration (st : GameState) (N : ℕ) :
    (apply_velocity^[N] st).ballPos.x = st.ballPos.x + st.ballVel.x * N * TIME_STEP ∧
    (apply_velocity^[N] st).ballPos.y = st.ballPos.y + st.ballVel.y * N * TIME_STEP ∧
    (apply_velocity^[N] st).ballVel = st.ballVel := by
  induction N with
  | zero => simp
  | succ n ih =>
    obtain ⟨hx, hy, hv⟩ := ih
    rw [Function.iterate_succ_apply']
    refine ⟨?_, ?_, ?_⟩ <;>
      simp only [apply_velocity, hx, hy, hv] <;>
      push_cast <;>
      ring

/-- C8: the startup assertions in `WallLocation::size` hold under the
reference constants: arena width and height are strictly positive, so for
every wall location the size computation succeeds (the panic branch is
unreachable and the function is total). -/
theorem wall_size_assertions_hold :
    0 < TOP_WALL - BOTTOM_WALL ∧ 0 < RIGHT_WALL - LEFT_WALL ∧
    ∀ loc : WallLocation, WallLocation.size loc = some loc.sizeRaw := by
  refine ⟨by norm_num [TOP_WALL, BOTTOM_WALL], by norm_num [RIGHT_WALL, LEFT_WALL], ?_⟩
  intro loc
  cases loc <;> simp [WallLocation.size, TOP_WALL, BOTTOM_WALL, RIGHT_WALL, LEFT_WALL]

/-- Every single tick leaves both score counters unchanged (helper). -/
theorem tick_preserves_scores (keys : KeyState) (st : GameState) :
    (tick keys st).leftScore = st.leftScore ∧ (tick keys st).rightScore = st.rightScore :=
  ⟨rfl, rfl⟩

/-- C9: the `Scoreboard` counters are never written: `check_for_collisions`
(the only system holding a mutable reference to the `Scoreboard`) leaves both
counters unchanged on every state, and any run of the fixed-timestep loop
from the initial state keeps both counters at their initial value `0`. -/
theorem scoreboard_never_mutated (inputs : List KeyState) (v : Vec2Q) :
    (∀ st : GameState, (check_for_collisions st).leftScore = st.leftScore ∧
        (check_for_collisions st).rightScore = st.rightScore) ∧
    (run inputs (initialState v)).leftScore = 0 ∧
    (run inputs (initialState v)).rightScore = 0 := by
  refine ⟨fun st => ⟨rfl, rfl⟩, ?_⟩
  have key : ∀ (l : List KeyState) (st : GameState),
      (run l st).leftScore = st.leftScore ∧ (run l st).rightScore = st.rightScore := by
    intro l
    induction l with
    | nil => exact fun st => ⟨rfl, rfl⟩
    | cons k ks ih =>
      intro st
      have h := ih (tick k st)
      exact ⟨h.1.trans (tick_preserves_scores k st).1,
             h.2.trans (tick_preserves_scores k st).2⟩
  exact key inputs (initialState v)

/-- The clamp always lands inside the range when the range is nonempty
(helper). -/
theorem clampQ_mem (x lo hi : ℚ) (h : lo ≤ hi) :
    lo ≤ clampQ x lo hi ∧ clampQ x lo hi ≤ hi := by
  unfold clampQ
  split_ifs <;> constructor <;> linarith

/-- The paddle clamp range is nonempty under the reference constants
(helper). -/
theorem lower_bound_le_upper_bound : lower_bound ≤ upper_bound := by
  norm_num [lower_bound, upper_bound, TOP_WALL, BOTTOM_WALL, WALL_THICKNESS,
    PADDLE_SIZE_Y, PADDLE_PADDING]

/-- A moved paddle center always ends the tick inside the clamp range
(helper). -/
theorem movePaddleY_mem (up down : Bool) (y : ℚ) :
    lower_bound ≤ movePaddleY up down y ∧ movePaddleY up down y ≤ upper_bound :=
  clampQ_mem _ _ _ lower_bound_le_upper_bound

/-- C2: for any sequence of per-tick key inputs and starting paddle centers
within bounds, each paddle's y-coordinate lies within
`[lower_bound, upper_bound]` at the end of every tick, where `upper_bound =
TOP_WALL - WALL_THICKNESS/2 - PADDLE_SIZE_Y/2 - PADDLE_PADDING` and
`lower_bound = BOTTOM_WALL + WALL_THICKNESS/2 + PADDLE_SIZE_Y/2 +
PADDLE_PADDING` (quantifying over all input lists covers every tick of a
longer run). -/
theorem paddle_bounds_invariant (inputs : List KeyState) (st : GameState)
    (hL : lower_bound ≤ st.leftPaddleY ∧ st.leftPaddleY ≤ upper_bound)
    (hR : lower_bound ≤ st.rightPaddleY ∧ st.rightPaddleY ≤ upper_bound) :
    (lower_bound ≤ (run inputs st).leftPaddleY ∧
      (run inputs st).leftPaddleY ≤ upper_bound) ∧
    (lower_bound ≤ (run inputs st).rightPaddleY ∧
      (run inputs st).rightPaddleY ≤ upper_bound) := by
  induction inputs generalizing st with
  | nil => exact ⟨hL, hR⟩
  | cons k ks ih =>
    exact ih (tick k st) (movePaddleY_mem k.w k.s st.leftPaddleY)
      (movePaddleY_mem k.up k.down st.rightPaddleY)

/-- Witness for C2 at a concrete run: one tick of simultaneous left-up and
right-down input from the freshly set up state. -/
theorem paddle_bounds_invariant_witness :
    (lower_bound ≤ (run [⟨true, false, false, true⟩] (initialState ⟨1, 2⟩)).leftPaddleY ∧
      (run [⟨true, false, false, true⟩] (initialState ⟨1, 2⟩)).leftPaddleY ≤ upper_bound) ∧
    (lower_bound ≤ (run [⟨true, false, false, true⟩] (initialState ⟨1, 2⟩)).rightPaddleY ∧
      (run [⟨true, false, false, true⟩] (initialState ⟨1, 2⟩)).rightPaddleY ≤ upper_bound) :=
  paddle_bounds_invariant [⟨true, false, false, true⟩] (initialState ⟨1, 2⟩)
    (by constructor <;>
      norm_num [initialState, lower_bound, upper_bound, TOP_WALL, BOTTOM_WALL,
        WALL_THICKNESS, PADDLE_SIZE_Y, PADDLE_PADDING])
    (by constructor <;>
      norm_num [initialState, lower_bound, upper_bound, TOP_WALL, BOTTOM_WALL,
        WALL_THICKNESS, PADDLE_SIZE_Y, PADDLE_PADDING])

/-- C7: paddle motion computes a signed direction in `{-1, 0, +1}` from the
two held keys of that paddle's fixed mapping (`+1` for up only, `-1` for down
only, `0` for neither or both), moves the paddle center by
`direction * PADDLE_SPEED * TIME_STEP`, immediately clamps into
`[lower_bound, upper_bound]`, and mutates only that paddle's position (left
paddle from `W`/`S`, right paddle from `Up`/`Down`). -/
theorem move_paddle_contract (keys : KeyState) (st : GameState) (up down : Bool) (y : ℚ) :
    (paddleDirection true false = 1 ∧ paddleDirection false true = -1 ∧
      paddleDirection false false = 0 ∧ paddleDirection true true = 0) ∧
    movePaddleY up down y =
      clampQ (y + paddleDirection up down * PADDLE_SPEED * TIME_STEP)
        lower_bound upper_bound ∧
    (lower_bound ≤ movePaddleY up down y ∧ movePaddleY up down y ≤ upper_bound) ∧
    (move_paddle_left keys st).leftPaddleY = movePaddleY keys.w keys.s st.leftPaddleY ∧
    (move_paddle_left keys st).rightPaddleY = st.rightPaddleY ∧
    (move_paddle_left keys st).ballPos = st.ballPos ∧
    (move_paddle_left keys st).ballVel = st.ballVel ∧
    (move_paddle_left keys st).leftScore = st.leftScore ∧
    (move_paddle_left keys st).rightScore = st.rightScore ∧
    (move_paddle_right keys st).rightPaddleY = movePaddleY keys.up keys.down st.rightPaddleY ∧
    (move_paddle_right keys st).leftPaddleY = st.leftPaddleY ∧
    (move_paddle_right keys st).ballPos = st.ballPos ∧
    (move_paddle_right keys st).ballVel = st.ballVel ∧
    (move_paddle_right keys st).leftScore = st.leftScore ∧
    (move_paddle_right keys st).rightScore = st.rightScore :=
  ⟨⟨by norm_num [paddleDirection], by norm_num [paddleDirection],
    by norm_num [paddleDirection], by norm_num [paddleDirection]⟩,
   rfl, movePaddleY_mem up down y,
   rfl, rfl, rfl, rfl, rfl, rfl, rfl, rfl, rfl, rfl, rfl, rfl⟩

/-- C10: the ball's initial velocity in `setup` is the sampled random
direction normalized and scaled by `BALL_SPEED`, so for every sampled
direction other than the zero vector the initial speed is exactly
`BALL_SPEED = 400`; there is no guard for a zero sampled direction, for
which normalization is undefined (modelled as `none`; NaN in the
floating-point implementation). -/
theorem ball_initial_speed (d : ℝ × ℝ) :
    (ballInitialVelocity d = none ↔ d = (0, 0)) ∧
    ∀ v : ℝ × ℝ, ballInitialVelocity d = some v →
      Real.sqrt (v.1 ^ 2 + v.2 ^ 2) = (BALL_SPEED : ℝ) := by
  have hnn : (0:ℝ) ≤ d.1 ^ 2 + d.2 ^ 2 := by positivity
  have hLzero : Real.sqrt (d.1 ^ 2 + d.2 ^ 2) = 0 ↔ d = (0, 0) := by
    rw [Real.sqrt_eq_zero hnn, Prod.ext_iff]
    constructor
    · intro h
      have h1 : d.1 ^ 2 = 0 := le_antisymm (by nlinarith [sq_nonneg d.2]) (sq_nonneg d.1)
      have h2 : d.2 ^ 2 = 0 := le_antisymm (by nlinarith [sq_nonneg d.1]) (sq_nonneg d.2)
      exact ⟨(pow_eq_zero_iff two_ne_zero).mp h1, (pow_eq_zero_iff two_ne_zero).mp h2⟩
    · rintro ⟨h1, h2⟩
      simp only at h1 h2
      rw [h1, h2]
      norm_num
  by_cases hd : d = (0, 0)
  · constructor
    · simp [ballInitialVelocity, normalizeV, hLzero.mpr hd, hd]
    · intro v hv
      rw [ballInitialVelocity, normalizeV, if_pos (hLzero.mpr hd)] at hv
      simp at hv
  · have hL : Real.sqrt (d.1 ^ 2 + d.2 ^ 2) ≠ 0 := fun h => hd (hLzero.mp h)
    have hsq : Real.sqrt (d.1 ^ 2 + d.2 ^ 2) ^ 2 = d.1 ^ 2 + d.2 ^ 2 :=
      Real.sq_sqrt hnn
    have hsum : d.1 ^ 2 + d.2 ^ 2 ≠ 0 := by
      rw [← hsq]
      exact pow_ne_zero 2 hL
    constructor
    · rw [ballInitialVelocity, normalizeV, if_neg hL, Option.map_some']
      exact ⟨fun h => Option.noConfusion h, fun h => absurd h hd⟩
    · intro v hv
      rw [ballInitialVelocity, normalizeV, if_neg hL, Option.map_some'] at hv
      have hv' := (Option.some_inj.mp hv).symm
      rw [hv']
      have key : (d.1 / Real.sqrt (d.1 ^ 2 + d.2 ^ 2) * (BALL_SPEED : ℝ)) ^ 2 +
          (d.2 / Real.sqrt (d.1 ^ 2 + d.2 ^ 2) * (BALL_SPEED : ℝ)) ^ 2 =
          (BALL_SPEED : ℝ) ^ 2 := by
        have expand : (d.1 / Real.sqrt (d.1 ^ 2 + d.2 ^ 2) * (BALL_SPEED : ℝ)) ^ 2 +
            (d.2 / Real.sqrt (d.1 ^ 2 + d.2 ^ 2) * (BALL_SPEED : ℝ)) ^ 2 =
            (d.1 ^ 2 + d.2 ^ 2) / Real.sqrt (d.1 ^ 2 + d.2 ^ 2) ^ 2 *
              (BALL_SPEED : ℝ) ^ 2 := by
          ring
        rw [expand, hsq, div_self hsum, one_mul]
      rw [key]
      exact Real.sqrt_sq (by norm_num [BALL_SPEED])

/-- Witness for C10: the sampled direction `(1, 0)` is nonzero and yields the
velocity `(400, 0)`, whose speed is exactly `BALL_SPEED`. -/
theorem ball_initial_speed_witness :
    Real.sqrt (((BALL_SPEED : ℝ)) ^ 2 + (0 : ℝ) ^ 2) = (BALL_SPEED : ℝ) :=
  (ball_initial_speed (1, 0)).2 ((BALL_SPEED : ℝ), 0)
    (by norm_num [ballInitialVelocity, normalizeV, Real.sqrt_one])

end Pong
